import Mathlib

/-!
Verification of the WhatsApp Business Profile Manager worker
(src/worker.js).  The worker's request handlers and the client-side
change computation are shallowly embedded as pure Lean functions:

* JSON values and JavaScript truthiness, property access and the
  or-chain used for media-handle extraction (worker.js lines 167-171);
* the JavaScript string trim used by the change computation;
* encodeURIComponent, used for phone/app identifiers in request URLs;
* the POST /api/profile handler (worker.js lines 62-99), returning its
  result together with the list of outbound remote calls it makes;
* the POST /api/photo handler's three-step upload flow
  (worker.js lines 102-186), likewise with its outbound-call trace;
* the computeChanges function of the embedded UI (worker.js 457-484).

Remote responses are supplied as explicit inputs (status, ok flag and
an optional parsed JSON body, none standing for a malformed body), so
every handler is a total function from its inputs and the remote
responses to a result plus the ordered list of remote calls performed.
-/

/-- JSON-ish JavaScript values.  jsUndefined models the undefined value
(absent property); obj fields are kept in order, first match wins. -/
inductive JSVal where
  | jsUndefined : JSVal
  | null : JSVal
  | bool : Bool → JSVal
  | num : Int → JSVal
  | str : String → JSVal
  | arr : List JSVal → JSVal
  | obj : List (String × JSVal) → JSVal

/-- JavaScript truthiness: undefined, null, false, 0 and "" are falsy. -/
def jsTruthy : JSVal → Bool
  | .jsUndefined => false
  | .null => false
  | .bool b => b
  | .num n => n != 0
  | .str s => s ≠ ""
  | .arr _ => true
  | .obj _ => true

/-- Property access v[k]: a named property of an object, undefined
otherwise (the embedding only applies it to values that cannot be
null/undefined unguarded, matching the source's use). -/
def jsGet : JSVal → String → JSVal
  | .obj fields, k =>
    match fields.find? (fun f => f.1 = k) with
    | some f => f.2
    | none => .jsUndefined
  | _, _ => .jsUndefined

/-- Index access v[0] as used on bytesJson.data: first element of an
array, property "0" of an object, first character of a string. -/
def jsIndex0 : JSVal → JSVal
  | .arr (x :: _) => x
  | .arr [] => .jsUndefined
  | .obj fields => jsGet (.obj fields) "0"
  | .str s => if s = "" then .jsUndefined else .str (s.take 1)
  | _ => .jsUndefined

/-- JavaScript a || b : a when truthy, else b. -/
def jsOr (a b : JSVal) : JSVal := if jsTruthy a then a else b

/-- JavaScript a && b : a when falsy, else b. -/
def jsAnd (a b : JSVal) : JSVal := if jsTruthy a then b else a

/-- Optional chaining x?.h : undefined when x is null/undefined, else x.h. -/
def jsOptH : JSVal → JSVal
  | .jsUndefined => .jsUndefined
  | .null => .jsUndefined
  | v => jsGet v "h"

/-- Handle extraction from the byte-upload response (worker.js 167-171):
bytesJson.h || bytesJson.handle ||
(bytesJson.data && (bytesJson.data[0]?.h || bytesJson.data.handle)) ||
bytesJson.profile_picture_handle. -/
def extractHandle (bytesJson : JSVal) : JSVal :=
  jsOr (jsGet bytesJson "h")
    (jsOr (jsGet bytesJson "handle")
      (jsOr
        (jsAnd (jsGet bytesJson "data")
          (jsOr (jsOptH (jsIndex0 (jsGet bytesJson "data")))
            (jsGet (jsGet bytesJson "data") "handle")))
        (jsGet bytesJson "profile_picture_handle")))

/-- safeJson (worker.js 193): a remote body parses to a JSON value or
fails to parse (none); a parse failure is treated as the empty object. -/
def safeJson (body : Option JSVal) : JSVal := body.getD (.obj [])

/-! ## JavaScript string trim -/

/-- JavaScript WhiteSpace / LineTerminator characters recognised by
String.prototype.trim (the commonly occurring ones). -/
def isJsWS (c : Char) : Bool :=
  c = ' ' || c = '\t' || c = '\n' || c = '\r' ||
  c = '\u000b' || c = '\u000c' || c.toNat = 0xA0 || c.toNat = 0xFEFF

/-- Drop leading and trailing whitespace from a character list. -/
def jsTrimList (l : List Char) : List Char :=
  ((l.dropWhile isJsWS).reverse.dropWhile isJsWS).reverse

/-- JavaScript s.trim(). -/
def jsTrim (s : String) : String := ⟨jsTrimList s.data⟩

theorem dropWhile_dropWhile (p : Char → Bool) (l : List Char) :
    (l.dropWhile p).dropWhile p = l.dropWhile p := by
  induction l with
  | nil => rfl
  | cons a t ih =>
    by_cases h : p a
    · simpa [List.dropWhile_cons_of_pos h] using ih
    · simp [List.dropWhile_cons_of_neg h, h]

theorem dropWhile_head_not (p : Char → Bool) (l : List Char) (a : Char)
    (h : (l.dropWhile p).head? = some a) : p a = false := by
  induction l with
  | nil => simp [List.dropWhile] at h
  | cons b t ih =>
    by_cases hb : p b
    · rw [List.dropWhile_cons_of_pos hb] at h; exact ih h
    · rw [List.dropWhile_cons_of_neg hb] at h
      simp at h
      subst h
      simpa using hb

theorem dropWhile_eq_self_of_head (p : Char → Bool) (l : List Char)
    (h : ∀ a, l.head? = some a → p a = false) : l.dropWhile p = l := by
  cases l with
  | nil => rfl
  | cons a t =>
    have := h a (by rfl)
    simp [List.dropWhile_cons, this]

theorem dropWhile_getLast? (p : Char → Bool) (l : List Char)
    (h : l.dropWhile p ≠ []) : (l.dropWhile p).getLast? = l.getLast? := by
  induction l with
  | nil => simp [List.dropWhile] at h
  | cons a t ih =>
    by_cases ha : p a
    · rw [List.dropWhile_cons_of_pos ha] at h ⊢
      have ht : t ≠ [] := by
        intro he; rw [he] at h; simp [List.dropWhile] at h
      obtain ⟨b, t', rfl⟩ := List.exists_cons_of_ne_nil ht
      rw [List.getLast?_cons_cons]
      exact ih h
    · rw [List.dropWhile_cons_of_neg ha]

theorem jsTrimList_idem (l : List Char) : jsTrimList (jsTrimList l) = jsTrimList l := by
  unfold jsTrimList
  set A := l.dropWhile isJsWS with hA
  set B := A.reverse.dropWhile isJsWS with hB
  by_cases hBnil : B = []
  · simp [hBnil]
  · have hdrB : B.reverse.dropWhile isJsWS = B.reverse := by
      apply dropWhile_eq_self_of_head
      intro a ha
      rw [List.head?_reverse] at ha
      have h1 : B.getLast? = A.reverse.getLast? := by
        rw [hB]; exact dropWhile_getLast? _ _ (by rw [← hB]; exact hBnil)
      rw [h1, List.getLast?_reverse] at ha
      exact dropWhile_head_not isJsWS l a (by rw [← hA]; exact ha)
    rw [hdrB, List.reverse_reverse]
    rw [hB, dropWhile_dropWhile]

theorem jsTrim_idem (s : String) : jsTrim (jsTrim s) = jsTrim s := by
  unfold jsTrim
  simp [jsTrimList_idem]

theorem jsTrim_length_pos (s : String) :
    (0 < (jsTrim (jsTrim s)).length) ↔ jsTrim s ≠ "" := by
  rw [jsTrim_idem]
  constructor
  · intro h he
    rw [he] at h
    simp [String.length] at h
  · intro h
    cases hst : jsTrim s with
    | mk data =>
      cases data with
      | nil => exact absurd hst h
      | cons a t => simp [String.length]

/-! ## encodeURIComponent -/

/-- Uppercase hexadecimal digit. -/
def hexDigit (n : Nat) : Char :=
  if n < 10 then Char.ofNat (48 + n) else Char.ofNat (55 + n)

/-- Two-digit uppercase hex rendering of a byte. -/
def hexByte (b : Nat) : String :=
  ⟨[hexDigit (b / 16 % 16), hexDigit (b % 16)]⟩

/-- UTF-8 bytes of a Unicode scalar value. -/
def utf8Bytes (n : Nat) : List Nat :=
  if n < 0x80 then [n]
  else if n < 0x800 then [0xC0 + n / 64, 0x80 + n % 64]
  else if n < 0x10000 then [0xE0 + n / 4096, 0x80 + n / 64 % 64, 0x80 + n % 64]
  else [0xF0 + n / 0x40000, 0x80 + n / 4096 % 64, 0x80 + n / 64 % 64, 0x80 + n % 64]

/-- Characters left unescaped by encodeURIComponent:
A-Z a-z 0-9 - _ . ! ~ * ' ( ). -/
def uriUnreserved (c : Char) : Bool :=
  c.isAlpha || c.isDigit ||
  c = '-' || c = '_' || c = '.' || c = '!' || c = '~' || c = '*' ||
  c.toNat = 39 || c = '(' || c = ')'

/-- Percent-encoding of one character. -/
def encChar (c : Char) : String :=
  if uriUnreserved c then ⟨[c]⟩
  else String.join ((utf8Bytes c.toNat).map (fun b => "%" ++ hexByte b))

/-- JavaScript encodeURIComponent. -/
def encodeURIComponent (s : String) : String :=
  String.join (s.data.map encChar)

/-! ## Graph API URLs (worker.js 7-8, 138-139, 151, 178) -/

/-- GRAPH = https://graph.facebook.com/v23.0 (worker.js 7-8). -/
def graphStr : String := "https://graph.facebook.com/v23.0"

/-- URL of the upload-session-create call (worker.js 138-139): the app
id and the mime type are percent-encoded into the URL. -/
def mkCreateUrl (appId : String) (fileLength : Nat) (mime : String) : String :=
  graphStr ++ "/" ++ encodeURIComponent appId ++ "/uploads?file_length=" ++
    toString fileLength ++ "&file_type=" ++ encodeURIComponent mime

/-- URL of the byte-upload call (worker.js 151): the raw session id is
appended with no encoding applied. -/
def mkStep2Url (rawId : String) : String := graphStr ++ "/" ++ rawId

/-- URL of the profile-apply calls (worker.js 89, 178): the phone id is
percent-encoded into the URL. -/
def mkProfileUrl (phoneId : String) : String :=
  graphStr ++ "/" ++ encodeURIComponent phoneId ++ "/whatsapp_business_profile"

/-! ## Remote responses and outbound calls -/

/-- A remote HTTP response as the handlers observe it: ok flag, status
code, and the body, which is either a parsed JSON value or none when
the body is not valid JSON. -/
structure RemoteResp where
  ok : Bool
  status : Nat
  body : Option JSVal

/-- The response of the source-image fetch (worker.js 128-134). -/
structure SourceResp where
  ok : Bool
  status : Nat
  contentType : Option String
  byteLen : Nat

/-- One outbound remote call, in the order the handler performs them. -/
inductive RemoteCall where
  | fetchSource : String → RemoteCall
  | createUpload : String → RemoteCall
  | uploadBytes : String → RemoteCall
  | applyHandle : String → RemoteCall
  | applyFields : String → List (String × JSVal) → RemoteCall

/-- The phase of an outbound call, forgetting its payload. -/
inductive CallKind where
  | kFetch : CallKind
  | kCreate : CallKind
  | kBytes : CallKind
  | kApply : CallKind
  | kFields : CallKind
deriving DecidableEq

/-- Phase of a call. -/
def RemoteCall.kind : RemoteCall → CallKind
  | .fetchSource _ => .kFetch
  | .createUpload _ => .kCreate
  | .uploadBytes _ => .kBytes
  | .applyHandle _ => .kApply
  | .applyFields _ _ => .kFields

/-- Result of the POST /api/photo handler, one constructor per return
site of the source (worker.js 102-186). -/
inductive PhotoResult where
  | missingCreds : PhotoResult
  | appIdMissing : PhotoResult
  | noSource : PhotoResult
  | invalidUrl : PhotoResult
  | notHttps : PhotoResult
  | fetchFailed : Nat → PhotoResult
  | badMediaType : PhotoResult
  | stepFailed : String → Nat → JSVal → PhotoResult
  | noUploadId : JSVal → PhotoResult
  | noHandle : JSVal → PhotoResult
  | applied : Bool → Nat → String → JSVal → JSVal → PhotoResult

/-- HTTP status of the handler's response (worker.js return sites). -/
def PhotoResult.httpStatus : PhotoResult → Nat
  | .missingCreds => 400
  | .appIdMissing => 400
  | .noSource => 400
  | .invalidUrl => 400
  | .notHttps => 400
  | .fetchFailed _ => 400
  | .badMediaType => 415
  | .stepFailed _ st _ => st
  | .noUploadId _ => 502
  | .noHandle _ => 502
  | .applied ok st _ _ _ => if ok then 200 else st

/-- The step tag of the error body the handler returns, when present
(the JSON field named step at worker.js 143, 147, 164, 174). -/
def PhotoResult.stepTag : PhotoResult → Option String
  | .stepFailed s _ _ => some s
  | .noUploadId _ => some "create_upload"
  | .noHandle _ => some "upload_bytes"
  | _ => none

/-- Steps 1-3 of the photo flow (worker.js 137-185), given the three
remote responses; returns the result and the ordered outbound calls. -/
def uploadFlow (phoneId appId mime : String) (fileLength : Nat)
    (createResp bytesResp applyResp : RemoteResp) : PhotoResult × List RemoteCall :=
  let createUrl := mkCreateUrl appId fileLength mime
  let calls1 := [RemoteCall.createUpload createUrl]
  let createJson := safeJson createResp.body
  if createResp.ok = false then
    (.stepFailed "create_upload" createResp.status createJson, calls1)
  else
    match jsGet createJson "id" with
    | .str rawId =>
      if rawId = "" then (.noUploadId createJson, calls1)
      else
        let calls2 := calls1 ++ [RemoteCall.uploadBytes (mkStep2Url rawId)]
        let bytesJson := safeJson bytesResp.body
        if bytesResp.ok = false then
          (.stepFailed "upload_bytes" bytesResp.status bytesJson, calls2)
        else
          let handle := extractHandle bytesJson
          if jsTruthy handle = false then (.noHandle bytesJson, calls2)
          else
            let calls3 := calls2 ++ [RemoteCall.applyHandle (mkProfileUrl phoneId)]
            let applyJson := safeJson applyResp.body
            (.applied applyResp.ok applyResp.status rawId handle applyJson, calls3)
    | _ => (.noUploadId createJson, calls1)

/-- ASCII lowercasing of one character. -/
def lowerChar (c : Char) : Char :=
  if 'A' ≤ c ∧ c ≤ 'Z' then Char.ofNat (c.toNat + 32) else c

/-- ASCII lowercasing, as applied by toLowerCase to the content-type
header and by the URL parser to the scheme. -/
def lowerAscii (s : String) : String := ⟨s.data.map lowerChar⟩

/-- Scheme well-formedness for the URL model: a letter followed by
letters, digits, plus, minus or dot. -/
def schemeOk (s : String) : Bool :=
  match s.data with
  | [] => false
  | c :: rest => c.isAlpha && rest.all (fun d => d.isAlpha || d.isDigit ||
      d = '+' || d = '-' || d = '.')

/-- The characters before the first colon, none when there is no
colon. -/
def upToColon : List Char → Option (List Char)
  | [] => none
  | c :: rest => if c = ':' then some [] else (upToColon rest).map (fun l => c :: l)

/-- Model of (new URL(s)).protocol: the lowercased scheme before the
first colon, followed by a colon; none when the string does not parse
as an absolute URL. -/
def urlProtocol (s : String) : Option String :=
  match upToColon s.data with
  | none => none
  | some scheme =>
    if schemeOk ⟨scheme⟩ then some (lowerAscii ⟨scheme⟩ ++ ":") else none

/-- The media-type allow-list (worker.js 108). -/
def allowedTypes : List String := ["image/jpeg", "image/jpg", "image/png"]

/-- Whether the character list s starts with the character list p. -/
def startsWithChars : List Char → List Char → Bool
  | _, [] => true
  | [], _ :: _ => false
  | a :: s, b :: p => a = b && startsWithChars s p

/-- The POST /api/photo handler on the JSON image_url branch
(worker.js 102-186): credentials and app id come from headers and env,
the image_url from the request body; the source fetch and the three
upload-flow responses are supplied as explicit inputs. -/
def photoHandlerUrl (token phoneId appId imageUrl : String)
    (src : SourceResp) (createResp bytesResp applyResp : RemoteResp) :
    PhotoResult × List RemoteCall :=
  if token = "" || phoneId = "" then (.missingCreds, [])
  else if appId = "" then (.appIdMissing, [])
  else if imageUrl = "" then (.noSource, [])
  else
    match urlProtocol imageUrl with
    | none => (.invalidUrl, [])
    | some proto =>
      if proto ≠ "https:" then (.notHttps, [])
      else
        let calls0 := [RemoteCall.fetchSource imageUrl]
        if src.ok = false then (.fetchFailed src.status, calls0)
        else
          let t := lowerAscii (src.contentType.getD "")
          if (startsWithChars t.data "image/".data && decide (t ∈ allowedTypes)) = false then
            (.badMediaType, calls0)
          else
            let r := uploadFlow phoneId appId t src.byteLen createResp bytesResp applyResp
            (r.1, calls0 ++ r.2)

/-! ## POST /api/profile (worker.js 62-99) -/

/-- includeIfValue (worker.js 70-75): null/undefined excluded, arrays
by non-emptiness, strings by non-emptiness after trimming, everything
else included. -/
def includeIfValue : JSVal → Bool
  | .jsUndefined => false
  | .null => false
  | .arr xs => decide (0 < xs.length)
  | .str s => decide (0 < (jsTrim s).length)
  | _ => true

/-- The keys filtered into the update payload (worker.js 78). -/
def profileKeys : List String :=
  ["about", "description", "address", "email", "vertical", "profile_picture_handle"]

/-- The outbound payload of POST /api/profile (worker.js 77-83): the
protocol discriminator, then each profile key whose body value passes
includeIfValue, then websites truncated to two when a non-empty array. -/
def profilePayload (bodyIn : JSVal) : List (String × JSVal) :=
  let base := [("messaging_product", JSVal.str "whatsapp")]
  let scalars := profileKeys.filterMap (fun k =>
    if includeIfValue (jsGet bodyIn k) then some (k, jsGet bodyIn k) else none)
  let ws :=
    match jsGet bodyIn "websites" with
    | .arr xs => if 0 < xs.length then [("websites", JSVal.arr (xs.take 2))] else []
    | _ => []
  base ++ scalars ++ ws

/-- Result of the POST /api/profile handler. -/
inductive ProfileResult where
  | missingCreds : ProfileResult
  | emptyChanges : ProfileResult
  | remote : Bool → Nat → JSVal → ProfileResult

/-- HTTP status of the handler's response (worker.js 66, 86, 98). -/
def ProfileResult.httpStatus : ProfileResult → Nat
  | .missingCreds => 400
  | .emptyChanges => 400
  | .remote ok st _ => if ok then 200 else st

/-- The POST /api/profile handler (worker.js 62-99): checks the
credential headers, builds the payload, rejects an empty payload
before any remote call, otherwise performs exactly one applyFields
call. -/
def profilePostHandler (token phoneId : String) (bodyIn : JSVal)
    (resp : RemoteResp) : ProfileResult × List RemoteCall :=
  if token = "" || phoneId = "" then (.missingCreds, [])
  else
    let payload := profilePayload bodyIn
    if payload.length = 1 then (.emptyChanges, [])
    else
      (.remote resp.ok resp.status (safeJson resp.body),
       [RemoteCall.applyFields (mkProfileUrl phoneId) payload])

/-! ## computeChanges (worker.js 457-484) -/

/-- The baseline profile held in state.current: field values may be
absent (the code guards each read with an or-empty default). -/
structure BaselineProfile where
  about : Option String
  description : Option String
  address : Option String
  email : Option String
  vertical : Option String
  websites : Option (List String)

/-- The proposed values read from the form fields (raw strings; the
computation trims them) and the websites pill state. -/
structure ProposedInput where
  about : String
  description : String
  address : String
  email : String
  vertical : String
  websites : List String

/-- A value stored in the change set: a trimmed scalar or the
truncated websites list. -/
inductive ChangeVal where
  | s : String → ChangeVal
  | ws : List String → ChangeVal

/-- One entry of the confirmation diff list (worker.js 472, 480). -/
structure DiffEntry where
  key : String
  old : String
  val : String

/-- include (worker.js 457) on a string value. -/
def includeStr (v : String) : Bool := decide (0 < (jsTrim v).length)

/-- One scalar field of the loop at worker.js 469-474: the proposed
value is trimmed; it is recorded iff include holds and it differs from
the baseline value (absent baseline read as empty string); the diff
entry shows "(empty)" for a falsy baseline value. -/
def scalarChange (k : String) (curV : Option String) (rawV : String) :
    List (String × ChangeVal) × List DiffEntry :=
  let pv := jsTrim rawV
  let cv := curV.getD ""
  if includeStr pv = true ∧ pv ≠ cv then
    ([(k, .s pv)], [⟨k, if cv = "" then "(empty)" else cv, pv⟩])
  else ([], [])

/-- Comma-space join used at worker.js 476-477. -/
def joinComma (l : List String) : String := String.intercalate ", " l

/-- The websites block at worker.js 475-482: the proposed list is
truncated to two entries (worker.js 466); it is recorded iff non-empty
and its join differs from the baseline join. -/
def websitesChange (curWs : Option (List String)) (propWs : List String) :
    List (String × ChangeVal) × List DiffEntry :=
  let pws := propWs.take 2
  if 0 < pws.length then
    let oldWs := joinComma (curWs.getD [])
    let newWs := joinComma pws
    if newWs ≠ oldWs then
      ([("websites", .ws pws)], [⟨"websites", if oldWs = "" then "(empty)" else oldWs, newWs⟩])
    else ([], [])
  else ([], [])

/-- computeChanges (worker.js 458-484) on the loaded path: the five
scalar fields in source order, then websites.  (The not-loaded early
return at worker.js 459 is UI gating around the same computation.) -/
def computeChanges (cur : BaselineProfile) (prop : ProposedInput) :
    List (String × ChangeVal) × List DiffEntry :=
  let a := scalarChange "about" cur.about prop.about
  let d := scalarChange "description" cur.description prop.description
  let ad := scalarChange "address" cur.address prop.address
  let e := scalarChange "email" cur.email prop.email
  let v := scalarChange "vertical" cur.vertical prop.vertical
  let w := websitesChange cur.websites prop.websites
  (a.1 ++ d.1 ++ ad.1 ++ e.1 ++ v.1 ++ w.1,
   a.2 ++ d.2 ++ ad.2 ++ e.2 ++ v.2 ++ w.2)

/-- The five scalar change-set fields, in source order. -/
def scalarKeys : List String := ["about", "description", "address", "email", "vertical"]

/-- The six possible change-set fields. -/
def changeSetKeys : List String :=
  ["about", "description", "address", "email", "vertical", "websites"]

/-- A profile with concrete field values, used to state properties of
computing a profile against itself. -/
structure Profile where
  about : String
  description : String
  address : String
  email : String
  vertical : String
  websites : List String

/-- A profile as the loaded baseline. -/
def Profile.asBaseline (p : Profile) : BaselineProfile :=
  ⟨some p.about, some p.description, some p.address, some p.email,
   some p.vertical, some p.websites⟩

/-- A profile as the proposed form input. -/
def Profile.asProposed (p : Profile) : ProposedInput :=
  ⟨p.about, p.description, p.address, p.email, p.vertical, p.websites⟩

deriving instance DecidableEq for ChangeVal
deriving instance DecidableEq for DiffEntry

/-! ## Helper lemmas -/

theorem includeStr_trim (r : String) : includeStr (jsTrim r) = true ↔ jsTrim r ≠ "" := by
  unfold includeStr
  rw [decide_eq_true_eq]
  exact jsTrim_length_pos r

theorem scalarChange_keys (k k' : String) (c : Option String) (r : String) :
    (k' ∈ (scalarChange k c r).1.map Prod.fst) ↔
      (k' = k ∧ jsTrim r ≠ "" ∧ jsTrim r ≠ c.getD "") := by
  unfold scalarChange
  by_cases h : includeStr (jsTrim r) = true ∧ jsTrim r ≠ c.getD ""
  · rw [if_pos h]
    simp only [List.map_cons, List.map_nil, List.mem_singleton]
    constructor
    · intro hk
      exact ⟨hk, (includeStr_trim r).mp h.1, h.2⟩
    · intro hk
      exact hk.1
  · rw [if_neg h]
    simp only [List.map_nil, List.not_mem_nil, false_iff]
    rintro ⟨_, h2, h3⟩
    exact h ⟨(includeStr_trim r).mpr h2, h3⟩

theorem websitesChange_keys (k' : String) (c : Option (List String)) (pw : List String) :
    (k' ∈ (websitesChange c pw).1.map Prod.fst) ↔
      (k' = "websites" ∧ pw.take 2 ≠ [] ∧
        joinComma (pw.take 2) ≠ joinComma (c.getD [])) := by
  unfold websitesChange
  by_cases h1 : 0 < (pw.take 2).length
  · rw [if_pos h1]
    by_cases h2 : joinComma (pw.take 2) ≠ joinComma (c.getD [])
    · rw [if_pos h2]
      simp only [List.map_cons, List.map_nil, List.mem_singleton]
      constructor
      · intro hk
        exact ⟨hk, List.ne_nil_of_length_pos h1, h2⟩
      · intro hk
        exact hk.1
    · rw [if_neg h2]
      simp only [List.map_nil, List.not_mem_nil, false_iff]
      rintro ⟨_, _, h3⟩
      exact h2 h3
  · rw [if_neg h1]
    simp only [List.map_nil, List.not_mem_nil, false_iff]
    rintro ⟨_, h2, _⟩
    exact h1 (List.length_pos_of_ne_nil h2)

theorem computeChanges_keys (cur : BaselineProfile) (prop : ProposedInput) (k : String) :
    k ∈ (computeChanges cur prop).1.map Prod.fst ↔
      ((k = "about" ∧ jsTrim prop.about ≠ "" ∧ jsTrim prop.about ≠ cur.about.getD "") ∨
       (k = "description" ∧ jsTrim prop.description ≠ "" ∧
         jsTrim prop.description ≠ cur.description.getD "") ∨
       (k = "address" ∧ jsTrim prop.address ≠ "" ∧ jsTrim prop.address ≠ cur.address.getD "") ∨
       (k = "email" ∧ jsTrim prop.email ≠ "" ∧ jsTrim prop.email ≠ cur.email.getD "") ∨
       (k = "vertical" ∧ jsTrim prop.vertical ≠ "" ∧ jsTrim prop.vertical ≠ cur.vertical.getD "") ∨
       (k = "websites" ∧ prop.websites.take 2 ≠ [] ∧
         joinComma (prop.websites.take 2) ≠ joinComma (cur.websites.getD []))) := by
  simp only [computeChanges, List.map_append, List.mem_append,
    scalarChange_keys, websitesChange_keys, or_assoc]

theorem scalarChange_mem_pair (k : String) (c : Option String) (r : String)
    (x : String × ChangeVal) (h : x ∈ (scalarChange k c r).1) :
    x = (k, ChangeVal.s (jsTrim r)) := by
  unfold scalarChange at h
  dsimp only at h
  split at h
  · simpa using h
  · simp at h

theorem websitesChange_mem_pair (c : Option (List String)) (pw : List String)
    (x : String × ChangeVal) (h : x ∈ (websitesChange c pw).1) :
    x = ("websites", ChangeVal.ws (pw.take 2)) := by
  unfold websitesChange at h
  dsimp only at h
  split at h
  · split at h
    · simpa using h
    · simp at h
  · simp at h

theorem scalarChange_diff_key (k : String) (c : Option String) (r : String)
    (e : DiffEntry) (h : e ∈ (scalarChange k c r).2) : e.key = k := by
  unfold scalarChange at h
  dsimp only at h
  split at h
  · simp at h
    rw [h]
  · simp at h

theorem websitesChange_pos (c : Option (List String)) (pw : List String)
    (h1 : pw.take 2 ≠ []) (h2 : joinComma (pw.take 2) ≠ joinComma (c.getD [])) :
    websitesChange c pw =
      ([("websites", ChangeVal.ws (pw.take 2))],
       [⟨"websites",
         if joinComma (c.getD []) = "" then "(empty)" else joinComma (c.getD []),
         joinComma (pw.take 2)⟩]) := by
  unfold websitesChange
  rw [if_pos (List.length_pos_of_ne_nil h1), if_pos h2]

theorem websitesChange_neg (c : Option (List String)) (pw : List String)
    (h : ¬(pw.take 2 ≠ [] ∧ joinComma (pw.take 2) ≠ joinComma (c.getD []))) :
    websitesChange c pw = ([], []) := by
  unfold websitesChange
  by_cases h1 : 0 < (pw.take 2).length
  · rw [if_pos h1]
    rw [if_neg]
    intro h2
    exact h ⟨List.ne_nil_of_length_pos h1, h2⟩
  · rw [if_neg h1]

theorem uploadFlow_cases (phoneId appId mime : String) (len : Nat)
    (c b a : RemoteResp) :
    (uploadFlow phoneId appId mime len c b a).2 =
        [RemoteCall.createUpload (mkCreateUrl appId len mime)] ∨
    (∃ sid, sid ≠ "" ∧ jsGet (safeJson c.body) "id" = JSVal.str sid ∧
      ((uploadFlow phoneId appId mime len c b a).2 =
          [RemoteCall.createUpload (mkCreateUrl appId len mime),
           RemoteCall.uploadBytes (mkStep2Url sid)] ∨
       (uploadFlow phoneId appId mime len c b a).2 =
          [RemoteCall.createUpload (mkCreateUrl appId len mime),
           RemoteCall.uploadBytes (mkStep2Url sid),
           RemoteCall.applyHandle (mkProfileUrl phoneId)])) := by
  unfold uploadFlow
  by_cases h1 : c.ok = false
  · rw [if_pos h1]
    left
    rfl
  · rw [if_neg h1]
    cases hid : jsGet (safeJson c.body) "id" with
    | str sid =>
      dsimp only
      by_cases hs : sid = ""
      · rw [if_pos hs]
        left
        rfl
      · rw [if_neg hs]
        by_cases h2 : b.ok = false
        · rw [if_pos h2]
          right
          exact ⟨sid, hs, rfl, Or.inl rfl⟩
        · rw [if_neg h2]
          by_cases h3 : jsTruthy (extractHandle (safeJson b.body)) = false
          · rw [if_pos h3]
            right
            exact ⟨sid, hs, rfl, Or.inl rfl⟩
          · rw [if_neg h3]
            right
            exact ⟨sid, hs, rfl, Or.inr rfl⟩
    | jsUndefined => left; rfl
    | null => left; rfl
    | bool x => left; rfl
    | num x => left; rfl
    | arr x => left; rfl
    | obj x => left; rfl

theorem uploadFlow_kinds (phoneId appId mime : String) (len : Nat)
    (c b a : RemoteResp) :
    (uploadFlow phoneId appId mime len c b a).2.map RemoteCall.kind = [.kCreate] ∨
    (uploadFlow phoneId appId mime len c b a).2.map RemoteCall.kind = [.kCreate, .kBytes] ∨
    (uploadFlow phoneId appId mime len c b a).2.map RemoteCall.kind =
      [.kCreate, .kBytes, .kApply] := by
  rcases uploadFlow_cases phoneId appId mime len c b a with h | ⟨sid, _, _, h | h⟩
  · left
    rw [h]
    rfl
  · right; left
    rw [h]
    rfl
  · right; right
    rw [h]
    rfl

theorem mem_scalarsPayload (bodyIn : JSVal) (k : String) :
    (k ∈ (profileKeys.filterMap (fun k' =>
        if includeIfValue (jsGet bodyIn k') then some (k', jsGet bodyIn k')
        else none)).map Prod.fst) ↔
      (k ∈ profileKeys ∧ includeIfValue (jsGet bodyIn k) = true) := by
  rw [List.mem_map]
  constructor
  · rintro ⟨⟨k1, v1⟩, hx, hk⟩
    rw [List.mem_filterMap] at hx
    obtain ⟨aa, ha, hf⟩ := hx
    by_cases hin : includeIfValue (jsGet bodyIn aa) = true
    · rw [if_pos hin] at hf
      cases hf
      cases hk
      exact ⟨ha, hin⟩
    · rw [if_neg hin] at hf
      cases hf
  · rintro ⟨hk, hin⟩
    refine ⟨(k, jsGet bodyIn k), ?_, rfl⟩
    rw [List.mem_filterMap]
    exact ⟨k, hk, by rw [if_pos hin]⟩

theorem mem_wsPayload (bodyIn : JSVal) (k : String) :
    (k ∈ (match jsGet bodyIn "websites" with
      | JSVal.arr xs =>
        if 0 < xs.length then [("websites", JSVal.arr (xs.take 2))] else []
      | _ => ([] : List (String × JSVal))).map Prod.fst) ↔
      (k = "websites" ∧ ∃ xs, jsGet bodyIn "websites" = JSVal.arr xs ∧ 0 < xs.length) := by
  cases hw : jsGet bodyIn "websites" with
  | arr xs =>
    dsimp only
    by_cases hl : 0 < xs.length
    · rw [if_pos hl]
      simp only [List.map_cons, List.map_nil, List.mem_singleton]
      constructor
      · intro hk
        exact ⟨hk, xs, rfl, hl⟩
      · intro hk
        exact hk.1
    · rw [if_neg hl]
      simp only [List.map_nil, List.not_mem_nil, false_iff]
      rintro ⟨_, ys, hy, hyl⟩
      cases hy
      exact hl hyl
  | jsUndefined => simp
  | null => simp
  | bool x => simp
  | num x => simp
  | str x => simp
  | obj x => simp

theorem profilePayload_keys (bodyIn : JSVal) (k : String) :
    k ∈ (profilePayload bodyIn).map Prod.fst ↔
      (k = "messaging_product" ∨
       (k ∈ profileKeys ∧ includeIfValue (jsGet bodyIn k) = true) ∨
       (k = "websites" ∧ ∃ xs, jsGet bodyIn "websites" = JSVal.arr xs ∧ 0 < xs.length)) := by
  unfold profilePayload
  dsimp only
  rw [List.map_append, List.map_append, List.mem_append, List.mem_append]
  rw [mem_scalarsPayload, mem_wsPayload]
  simp only [List.map_cons, List.map_nil, List.mem_singleton, or_assoc]

theorem profilePayload_empty (bodyIn : JSVal)
    (h : ∀ k ∈ profileKeys, includeIfValue (jsGet bodyIn k) = false)
    (hw : ∀ xs, jsGet bodyIn "websites" = JSVal.arr xs → xs = []) :
    profilePayload bodyIn = [("messaging_product", JSVal.str "whatsapp")] := by
  unfold profilePayload
  dsimp only
  have hs : profileKeys.filterMap (fun k' =>
      if includeIfValue (jsGet bodyIn k') then some (k', jsGet bodyIn k')
      else none) = [] := by
    rw [List.filterMap_eq_nil_iff]
    intro aa ha
    rw [if_neg]
    intro hc
    rw [h aa ha] at hc
    exact Bool.false_ne_true hc
  rw [hs]
  cases hwv : jsGet bodyIn "websites" with
  | arr xs =>
    rw [hw xs hwv]
    simp
  | jsUndefined => simp
  | null => simp
  | bool x => simp
  | num x => simp
  | str x => simp
  | obj x => simp

/-! ## Claims -/

/-- Claim C7, counterexample: for the profile whose about field is " x"
(leading whitespace), computing changes against itself yields a
non-empty change set containing about (the proposed value is trimmed
inside computeChanges but the baseline is compared untrimmed), and a
non-empty diff list, refuting the claim that a profile diffed against
itself always yields an empty change set and diff list. -/
theorem c7_counterexample :
    (computeChanges (Profile.asBaseline ⟨" x", "", "", "", "", []⟩)
        (Profile.asProposed ⟨" x", "", "", "", "", []⟩)).1.map Prod.fst = ["about"] ∧
    (computeChanges (Profile.asBaseline ⟨" x", "", "", "", "", []⟩)
        (Profile.asProposed ⟨" x", "", "", "", "", []⟩)).2.map DiffEntry.key = ["about"] :=
  ⟨rfl, rfl⟩

/-- Claim C7 (amended): for every profile whose scalar fields are
unchanged by trimming and whose websites list has at most two entries
(the ProfileFields invariant), computing the change set of the profile
against itself yields an empty change set and an empty diff list. -/
theorem c7_self_diff_empty (p : Profile)
    (ha : jsTrim p.about = p.about) (hd : jsTrim p.description = p.description)
    (had : jsTrim p.address = p.address) (he : jsTrim p.email = p.email)
    (hv : jsTrim p.vertical = p.vertical) (hw : p.websites.length ≤ 2) :
    computeChanges p.asBaseline p.asProposed = ([], []) := by
  have hsc : ∀ (k s : String), jsTrim s = s → scalarChange k (some s) s = ([], []) := by
    intro k s hs
    unfold scalarChange
    rw [if_neg]
    rintro ⟨_, hne⟩
    exact hne (by rw [hs]; rfl)
  have hws : websitesChange (some p.websites) p.websites = ([], []) := by
    have ht : p.websites.take 2 = p.websites := List.take_of_length_le hw
    unfold websitesChange
    dsimp only
    rw [ht]
    split
    · rw [if_neg (by simp)]
    · rfl
  unfold computeChanges Profile.asBaseline Profile.asProposed
  dsimp only
  rw [hsc "about" p.about ha, hsc "description" p.description hd,
    hsc "address" p.address had, hsc "email" p.email he,
    hsc "vertical" p.vertical hv, hws]
  rfl

/-- Claim C7, witness for the amended theorem at a concrete profile. -/
theorem c7_self_diff_empty_witness :
    computeChanges (Profile.asBaseline ⟨"hello", "", "", "", "", ["https://a.com"]⟩)
      (Profile.asProposed ⟨"hello", "", "", "", "", ["https://a.com"]⟩) = ([], []) :=
  c7_self_diff_empty ⟨"hello", "", "", "", "", ["https://a.com"]⟩
    (by decide) (by decide) (by decide) (by decide) (by decide) (by decide)

/-- Claim C9: remote-body parsing is total by construction (safeJson is
a total function of the optional parsed body); a malformed body (none)
is treated as the empty object, a parsed body is passed through; and
every handler behaves identically on a malformed remote body and on an
empty-object remote body, for each of the remote calls. -/
theorem c9_malformed_body_total (phoneId appId mime : String) (len : Nat)
    (c b a : RemoteResp) (token : String) (bodyIn : JSVal) (r : RemoteResp) :
    safeJson none = JSVal.obj [] ∧
    (∀ j, safeJson (some j) = j) ∧
    uploadFlow phoneId appId mime len ⟨c.ok, c.status, none⟩ b a =
      uploadFlow phoneId appId mime len ⟨c.ok, c.status, some (JSVal.obj [])⟩ b a ∧
    uploadFlow phoneId appId mime len c ⟨b.ok, b.status, none⟩ a =
      uploadFlow phoneId appId mime len c ⟨b.ok, b.status, some (JSVal.obj [])⟩ a ∧
    uploadFlow phoneId appId mime len c b ⟨a.ok, a.status, none⟩ =
      uploadFlow phoneId appId mime len c b ⟨a.ok, a.status, some (JSVal.obj [])⟩ ∧
    profilePostHandler token phoneId bodyIn ⟨r.ok, r.status, none⟩ =
      profilePostHandler token phoneId bodyIn ⟨r.ok, r.status, some (JSVal.obj [])⟩ :=
  ⟨rfl, fun _ => rfl, rfl, rfl, rfl, rfl⟩

/-- Claim C6: when the credential headers are present but the request
body has no qualifying field (every profile key fails the non-empty
filter and websites is not a non-empty array), POST /api/profile
returns the empty-changeset validation error with HTTP status 400 and
performs no outbound remote call at all. -/
theorem c6_empty_changeset (token phoneId : String) (bodyIn : JSVal) (resp : RemoteResp)
    (ht : token ≠ "") (hp : phoneId ≠ "")
    (h : ∀ k ∈ profileKeys, includeIfValue (jsGet bodyIn k) = false)
    (hw : ∀ xs, jsGet bodyIn "websites" = JSVal.arr xs → xs = []) :
    profilePostHandler token phoneId bodyIn resp = (.emptyChanges, []) ∧
    ProfileResult.httpStatus .emptyChanges = 400 := by
  refine ⟨?_, rfl⟩
  unfold profilePostHandler
  rw [if_neg (by simp [ht, hp])]
  dsimp only
  rw [profilePayload_empty bodyIn h hw]
  rfl

/-- Claim C6, witness: a body whose about is whitespace-only and whose
websites value is absent produces the empty-changeset rejection with
no remote call. -/
theorem c6_empty_changeset_witness :
    profilePostHandler "tok" "12345" (JSVal.obj [("about", JSVal.str "   ")])
        ⟨true, 200, none⟩ = (.emptyChanges, []) ∧
    ProfileResult.httpStatus .emptyChanges = 400 :=
  c6_empty_changeset "tok" "12345" (JSVal.obj [("about", JSVal.str "   ")])
    ⟨true, 200, none⟩ (by decide) (by decide) (by decide)
    (fun xs hx => by
      rw [show jsGet (JSVal.obj [("about", JSVal.str "   ")]) "websites" = JSVal.jsUndefined
        from rfl] at hx
      exact JSVal.noConfusion hx)

/-- Claim C2: if the session-create call returns a non-success
response, the flow stops with a create_upload-tagged failure carrying
the remote status and (parsed) body, having made only the create call
(no byte-upload, no profile-apply); and in every run the outbound
calls of the flow are exactly one of the strictly sequential shapes
create; create,bytes; create,bytes,apply - so each remote call happens
at most once and in order, for the full handler preceded by at most
one source fetch. -/
theorem c2_create_failure_stops (phoneId appId mime : String) (len : Nat)
    (c b a : RemoteResp) :
    (c.ok = false →
      uploadFlow phoneId appId mime len c b a =
        (.stepFailed "create_upload" c.status (safeJson c.body),
         [RemoteCall.createUpload (mkCreateUrl appId len mime)]) ∧
      PhotoResult.stepTag (.stepFailed "create_upload" c.status (safeJson c.body)) =
        some "create_upload" ∧
      PhotoResult.httpStatus (.stepFailed "create_upload" c.status (safeJson c.body)) =
        c.status) ∧
    ((uploadFlow phoneId appId mime len c b a).2.map RemoteCall.kind = [.kCreate] ∨
     (uploadFlow phoneId appId mime len c b a).2.map RemoteCall.kind = [.kCreate, .kBytes] ∨
     (uploadFlow phoneId appId mime len c b a).2.map RemoteCall.kind =
       [.kCreate, .kBytes, .kApply]) ∧
    (∀ (token imageUrl : String) (src : SourceResp),
      (photoHandlerUrl token phoneId appId imageUrl src c b a).2.map RemoteCall.kind ∈
        ([[], [CallKind.kFetch], [.kFetch, .kCreate], [.kFetch, .kCreate, .kBytes],
          [.kFetch, .kCreate, .kBytes, .kApply]] : List (List CallKind))) := by
  refine ⟨?_, uploadFlow_kinds phoneId appId mime len c b a, ?_⟩
  · intro hfail
    refine ⟨?_, rfl, rfl⟩
    unfold uploadFlow
    rw [if_pos hfail]
  · intro token imageUrl src
    unfold photoHandlerUrl
    split
    · simp
    · split
      · simp
      · split
        · simp
        · split
          · simp
          · split
            · simp
            · dsimp only
              split
              · simp [RemoteCall.kind]
              · split
                · simp [RemoteCall.kind]
                · rw [List.map_append]
                  rcases uploadFlow_kinds phoneId appId
                      (lowerAscii (src.contentType.getD "")) src.byteLen c b a with h | h | h <;>
                    rw [h] <;> simp [RemoteCall.kind]

/-- Claim C2, witness: a failed session create (HTTP 500, unparsable
body) stops the flow after the single create call. -/
theorem c2_create_failure_stops_witness :
    uploadFlow "12345" "777" "image/png" 9 ⟨false, 500, none⟩
        ⟨true, 200, none⟩ ⟨true, 200, none⟩ =
      (.stepFailed "create_upload" 500 (safeJson none),
       [RemoteCall.createUpload (mkCreateUrl "777" 9 "image/png")]) ∧
    PhotoResult.stepTag (.stepFailed "create_upload" 500 (safeJson none)) =
      some "create_upload" ∧
    PhotoResult.httpStatus (.stepFailed "create_upload" 500 (safeJson none)) = 500 :=
  (c2_create_failure_stops "12345" "777" "image/png" 9 ⟨false, 500, none⟩
    ⟨true, 200, none⟩ ⟨true, 200, none⟩).1 rfl

/-- Claim C3: when the byte-upload response is an HTTP success but no
media handle can be extracted from its body under any of the
recognised shapes, the flow ends with the protocol failure tagged at
the upload_bytes phase with HTTP status 502 (not a success result),
and the profile-apply call is never made. -/
theorem c3_missing_handle (phoneId appId mime : String) (len : Nat)
    (c b a : RemoteResp) (sid : String)
    (hok : c.ok = true) (hid : jsGet (safeJson c.body) "id" = JSVal.str sid)
    (hsid : sid ≠ "") (hbok : b.ok = true)
    (hh : jsTruthy (extractHandle (safeJson b.body)) = false) :
    uploadFlow phoneId appId mime len c b a =
      (.noHandle (safeJson b.body),
       [RemoteCall.createUpload (mkCreateUrl appId len mime),
        RemoteCall.uploadBytes (mkStep2Url sid)]) ∧
    PhotoResult.stepTag (.noHandle (safeJson b.body)) = some "upload_bytes" ∧
    PhotoResult.httpStatus (.noHandle (safeJson b.body)) = 502 ∧
    (∀ u, RemoteCall.applyHandle u ∉ (uploadFlow phoneId appId mime len c b a).2) := by
  have hmain : uploadFlow phoneId appId mime len c b a =
      (.noHandle (safeJson b.body),
       [RemoteCall.createUpload (mkCreateUrl appId len mime),
        RemoteCall.uploadBytes (mkStep2Url sid)]) := by
    unfold uploadFlow
    rw [if_neg (by simp [hok])]
    rw [hid]
    dsimp only
    rw [if_neg hsid]
    rw [if_neg (by simp [hbok])]
    rw [if_pos hh]
    rfl
  refine ⟨hmain, rfl, rfl, ?_⟩
  intro u
  rw [hmain]
  intro hu
  simp at hu

/-- Claim C3, witness: bytes response HTTP 200 with body an empty
object ends in the upload_bytes protocol failure after two calls. -/
theorem c3_missing_handle_witness :
    uploadFlow "12345" "777" "image/png" 9
        ⟨true, 200, some (JSVal.obj [("id", JSVal.str "upload:X")])⟩
        ⟨true, 200, some (JSVal.obj [])⟩ ⟨true, 200, none⟩ =
      (.noHandle (safeJson (some (JSVal.obj []))),
       [RemoteCall.createUpload (mkCreateUrl "777" 9 "image/png"),
        RemoteCall.uploadBytes (mkStep2Url "upload:X")]) ∧
    PhotoResult.stepTag (.noHandle (safeJson (some (JSVal.obj [])))) =
      some "upload_bytes" ∧
    PhotoResult.httpStatus (.noHandle (safeJson (some (JSVal.obj [])))) = 502 ∧
    (∀ u, RemoteCall.applyHandle u ∉
      (uploadFlow "12345" "777" "image/png" 9
        ⟨true, 200, some (JSVal.obj [("id", JSVal.str "upload:X")])⟩
        ⟨true, 200, some (JSVal.obj [])⟩ ⟨true, 200, none⟩).2) :=
  c3_missing_handle "12345" "777" "image/png" 9
    ⟨true, 200, some (JSVal.obj [("id", JSVal.str "upload:X")])⟩
    ⟨true, 200, some (JSVal.obj [])⟩ ⟨true, 200, none⟩ "upload:X"
    rfl rfl (by decide) rfl rfl

/-- Claim C5: the byte-upload URL is the Graph base plus the session
id exactly as returned by the create call, byte for byte with no
percent-encoding (even for an id containing a colon and a ?sig= query
part, on which encodeURIComponent is not the identity), while the
create-call URL percent-encodes the app id and the apply-call URL
percent-encodes the phone id. -/
theorem c5_raw_session_id (phoneId appId mime : String) (len : Nat)
    (c b a : RemoteResp) (sid : String) :
    (jsGet (safeJson c.body) "id" = JSVal.str sid →
      ∀ u, RemoteCall.uploadBytes u ∈ (uploadFlow phoneId appId mime len c b a).2 →
        u = graphStr ++ "/" ++ sid) ∧
    (∀ u, RemoteCall.createUpload u ∈ (uploadFlow phoneId appId mime len c b a).2 →
      u = graphStr ++ "/" ++ encodeURIComponent appId ++ "/uploads?file_length=" ++
        toString len ++ "&file_type=" ++ encodeURIComponent mime) ∧
    (∀ u, RemoteCall.applyHandle u ∈ (uploadFlow phoneId appId mime len c b a).2 →
      u = graphStr ++ "/" ++ encodeURIComponent phoneId ++ "/whatsapp_business_profile") ∧
    encodeURIComponent "upload:MTphdHRhY2htZW50OjEyMw==?sig=ARZxyz" ≠
      "upload:MTphdHRhY2htZW50OjEyMw==?sig=ARZxyz" := by
  refine ⟨?_, ?_, ?_, by decide⟩
  · intro hid u hu
    rcases uploadFlow_cases phoneId appId mime len c b a with h | ⟨s2, _, hid2, h | h⟩ <;>
      rw [h] at hu <;> simp at hu
    · rw [hid] at hid2
      cases hid2
      exact hu
    · rw [hid] at hid2
      cases hid2
      exact hu
  · intro u hu
    rcases uploadFlow_cases phoneId appId mime len c b a with h | ⟨s2, _, _, h | h⟩ <;>
      rw [h] at hu <;> simp at hu <;> exact hu
  · intro u hu
    rcases uploadFlow_cases phoneId appId mime len c b a with h | ⟨s2, _, _, h | h⟩ <;>
      rw [h] at hu <;> simp at hu
    exact hu

/-- Claim C5, witness: a run whose session id contains a colon and a
?sig= query part forwards it verbatim to the byte-upload URL, while
the app and phone identifiers go through encodeURIComponent. -/
theorem c5_raw_session_id_witness :
    mkStep2Url "upload:MTphdHRhY2htZW50OjEyMw==?sig=ARZxyz" =
      graphStr ++ "/" ++ "upload:MTphdHRhY2htZW50OjEyMw==?sig=ARZxyz" ∧
    mkCreateUrl "777" 9 "image/png" =
      graphStr ++ "/" ++ encodeURIComponent "777" ++ "/uploads?file_length=" ++
        toString 9 ++ "&file_type=" ++ encodeURIComponent "image/png" ∧
    mkProfileUrl "12345" =
      graphStr ++ "/" ++ encodeURIComponent "12345" ++ "/whatsapp_business_profile" := by
  have h := c5_raw_session_id "12345" "777" "image/png" 9
      ⟨true, 200,
        some (JSVal.obj [("id", JSVal.str "upload:MTphdHRhY2htZW50OjEyMw==?sig=ARZxyz")])⟩
      ⟨true, 200, some (JSVal.obj [("h", JSVal.str "H")])⟩ ⟨true, 200, none⟩
      "upload:MTphdHRhY2htZW50OjEyMw==?sig=ARZxyz"
  have htr : (uploadFlow "12345" "777" "image/png" 9
      ⟨true, 200,
        some (JSVal.obj [("id", JSVal.str "upload:MTphdHRhY2htZW50OjEyMw==?sig=ARZxyz")])⟩
      ⟨true, 200, some (JSVal.obj [("h", JSVal.str "H")])⟩ ⟨true, 200, none⟩).2 =
      [RemoteCall.createUpload (mkCreateUrl "777" 9 "image/png"),
       RemoteCall.uploadBytes (mkStep2Url "upload:MTphdHRhY2htZW50OjEyMw==?sig=ARZxyz"),
       RemoteCall.applyHandle (mkProfileUrl "12345")] := rfl
  refine ⟨h.1 rfl _ ?_, h.2.1 _ ?_, h.2.2.1 _ ?_⟩
  · rw [htr]
    exact List.mem_cons_of_mem _ (List.mem_cons_self _ _)
  · rw [htr]
    exact List.mem_cons_self _ _
  · rw [htr]
    exact List.mem_cons_of_mem _ (List.mem_cons_of_mem _ (List.mem_cons_self _ _))

/-- Claim C8: a photo request supplying a source URL whose scheme is
not https is rejected (4xx) before any outbound call at all - in
particular before the source fetch and before any upload session is
created; and when the URL passes but the fetched content-type is
outside the jpeg/png allow-list, the handler stops at 415 having made
only the source fetch, so no upload session is ever created for an
invalid source. -/
theorem c8_source_validation (token phoneId appId imageUrl : String)
    (src : SourceResp) (c b a : RemoteResp) :
    (urlProtocol imageUrl ≠ some "https:" →
      (photoHandlerUrl token phoneId appId imageUrl src c b a).2 = [] ∧
      (photoHandlerUrl token phoneId appId imageUrl src c b a).1.httpStatus = 400) ∧
    (token ≠ "" → phoneId ≠ "" → appId ≠ "" → imageUrl ≠ "" →
      urlProtocol imageUrl = some "https:" → src.ok = true →
      lowerAscii (src.contentType.getD "") ∉ allowedTypes →
      photoHandlerUrl token phoneId appId imageUrl src c b a =
        (.badMediaType, [RemoteCall.fetchSource imageUrl]) ∧
      PhotoResult.httpStatus .badMediaType = 415) := by
  constructor
  · intro hproto
    unfold photoHandlerUrl
    split
    · exact ⟨rfl, rfl⟩
    · split
      · exact ⟨rfl, rfl⟩
      · split
        · exact ⟨rfl, rfl⟩
        · cases hp : urlProtocol imageUrl with
          | none => exact ⟨rfl, rfl⟩
          | some proto =>
            dsimp only
            split
            · exact ⟨rfl, rfl⟩
            · rename_i hne
              exfalso
              apply hproto
              rw [hp]
              simp at hne
              rw [hne]
  · intro ht hp ha hu hproto hsrc hct
    unfold photoHandlerUrl
    rw [if_neg (by simp [ht, hp])]
    rw [if_neg ha, if_neg hu, hproto]
    dsimp only
    rw [if_neg (by simp)]
    rw [if_neg (by simp [hsrc])]
    rw [if_pos (by simp [hct])]
    exact ⟨rfl, rfl⟩

/-- Claim C8, witness: an http (non-https) URL is rejected with no
calls, and an https URL fetched as text/html is rejected at 415 after
only the source fetch. -/
theorem c8_source_validation_witness :
    ((photoHandlerUrl "tok" "12345" "777" "http://x.com/i.png"
        ⟨true, 200, some "image/png", 9⟩ ⟨true, 200, none⟩ ⟨true, 200, none⟩
        ⟨true, 200, none⟩).2 = [] ∧
     (photoHandlerUrl "tok" "12345" "777" "http://x.com/i.png"
        ⟨true, 200, some "image/png", 9⟩ ⟨true, 200, none⟩ ⟨true, 200, none⟩
        ⟨true, 200, none⟩).1.httpStatus = 400) ∧
    (photoHandlerUrl "tok" "12345" "777" "https://x.com/i.png"
        ⟨true, 200, some "text/html", 9⟩ ⟨true, 200, none⟩ ⟨true, 200, none⟩
        ⟨true, 200, none⟩ =
      (.badMediaType, [RemoteCall.fetchSource "https://x.com/i.png"]) ∧
     PhotoResult.httpStatus .badMediaType = 415) :=
  ⟨(c8_source_validation "tok" "12345" "777" "http://x.com/i.png"
      ⟨true, 200, some "image/png", 9⟩ ⟨true, 200, none⟩ ⟨true, 200, none⟩
      ⟨true, 200, none⟩).1 (by decide),
   (c8_source_validation "tok" "12345" "777" "https://x.com/i.png"
      ⟨true, 200, some "text/html", 9⟩ ⟨true, 200, none⟩ ⟨true, 200, none⟩
      ⟨true, 200, none⟩).2 (by decide) (by decide) (by decide) (by decide)
      (by decide) rfl (by decide)⟩

/-- Claim C1: a scalar field is in the computed change set iff its
proposed value is non-empty after trimming and (trimmed) differs from
the baseline value, an absent baseline value being read as the empty
string; and on the server side a scalar key whose body value is a
whitespace-only string never appears in the outbound update payload. -/
theorem c1_scalar_inclusion (cur : BaselineProfile) (prop : ProposedInput) :
    (("about" ∈ (computeChanges cur prop).1.map Prod.fst) ↔
      (jsTrim prop.about ≠ "" ∧ jsTrim prop.about ≠ cur.about.getD "")) ∧
    (("description" ∈ (computeChanges cur prop).1.map Prod.fst) ↔
      (jsTrim prop.description ≠ "" ∧ jsTrim prop.description ≠ cur.description.getD "")) ∧
    (("address" ∈ (computeChanges cur prop).1.map Prod.fst) ↔
      (jsTrim prop.address ≠ "" ∧ jsTrim prop.address ≠ cur.address.getD "")) ∧
    (("email" ∈ (computeChanges cur prop).1.map Prod.fst) ↔
      (jsTrim prop.email ≠ "" ∧ jsTrim prop.email ≠ cur.email.getD "")) ∧
    (("vertical" ∈ (computeChanges cur prop).1.map Prod.fst) ↔
      (jsTrim prop.vertical ≠ "" ∧ jsTrim prop.vertical ≠ cur.vertical.getD "")) ∧
    (∀ k, k ∈ scalarKeys → ∀ (bodyIn : JSVal) (s : String),
      jsGet bodyIn k = JSVal.str s → jsTrim s = "" →
      k ∉ (profilePayload bodyIn).map Prod.fst) := by
  refine ⟨?_, ?_, ?_, ?_, ?_, ?_⟩
  · rw [computeChanges_keys]
    simp
  · rw [computeChanges_keys]
    simp
  · rw [computeChanges_keys]
    simp
  · rw [computeChanges_keys]
    simp
  · rw [computeChanges_keys]
    simp
  · intro k hk bodyIn s hks hts hmem
    rw [profilePayload_keys] at hmem
    fin_cases hk <;>
      rcases hmem with h1 | ⟨h2a, h2b⟩ | ⟨h3, _⟩ <;>
      first
        | exact absurd h1 (by decide)
        | exact absurd h3 (by decide)
        | (rw [hks] at h2b
           simp only [includeIfValue, hts] at h2b
           exact absurd h2b (by decide))

/-- Claim C1, witness: with baseline about "Hello" and proposed about
whitespace-only, about is not in the change set, and a whitespace-only
about in the request body never reaches the update payload. -/
theorem c1_scalar_inclusion_witness :
    (¬("about" ∈ (computeChanges ⟨some "Hello", none, none, none, none, none⟩
        ⟨"  ", "", "", "", "", []⟩).1.map Prod.fst)) ∧
    "about" ∉ (profilePayload (JSVal.obj [("about", JSVal.str "  ")])).map Prod.fst :=
  ⟨fun h => by
      have h2 := (c1_scalar_inclusion ⟨some "Hello", none, none, none, none, none⟩
        ⟨"  ", "", "", "", "", []⟩).1.mp h
      exact h2.1 (by decide),
   (c1_scalar_inclusion ⟨some "Hello", none, none, none, none, none⟩
      ⟨"  ", "", "", "", "", []⟩).2.2.2.2.2 "about" (by decide)
      (JSVal.obj [("about", JSVal.str "  ")]) "  " rfl (by decide)⟩

/-- Claim C4, counterexample: with an empty baseline websites list and
proposed websites [https://a.com], the single emitted websites diff
entry has old value the literal "(empty)" sentinel, not the
comma-joined rendering of the baseline (which is the empty string), so
the diff entry's old value is not always the joined string as the
claim states. -/
theorem c4_counterexample :
    (computeChanges ⟨none, none, none, none, none, some []⟩
        ⟨"", "", "", "", "", ["https://a.com"]⟩).2 =
      [⟨"websites", "(empty)", "https://a.com"⟩] ∧
    "(empty)" ≠ joinComma [] :=
  ⟨rfl, by decide⟩

/-- Claim C4 (amended): the proposed websites list is truncated to its
first two entries; websites is in the change set iff the truncated
list is non-empty and its comma-joined rendering differs from the
baseline's; any websites value recorded is exactly the truncated list;
when included, the diff list ends with exactly one websites entry
whose new value is the joined proposed rendering and whose old value
is the joined baseline rendering - or the "(empty)" sentinel when that
rendering is empty - and no other diff entry carries the websites key;
when not included no diff entry carries the websites key. -/
theorem c4_websites (cur : BaselineProfile) (prop : ProposedInput) :
    (("websites" ∈ (computeChanges cur prop).1.map Prod.fst) ↔
      (prop.websites.take 2 ≠ [] ∧
        joinComma (prop.websites.take 2) ≠ joinComma (cur.websites.getD []))) ∧
    (∀ v, ("websites", v) ∈ (computeChanges cur prop).1 →
      v = ChangeVal.ws (prop.websites.take 2)) ∧
    (prop.websites.take 2 ≠ [] →
      joinComma (prop.websites.take 2) ≠ joinComma (cur.websites.getD []) →
      ∃ pre, (computeChanges cur prop).2 =
          pre ++ [⟨"websites",
            if joinComma (cur.websites.getD []) = "" then "(empty)"
            else joinComma (cur.websites.getD []),
            joinComma (prop.websites.take 2)⟩] ∧
        ∀ e ∈ pre, e.key ≠ "websites") ∧
    (¬(prop.websites.take 2 ≠ [] ∧
        joinComma (prop.websites.take 2) ≠ joinComma (cur.websites.getD [])) →
      ∀ e ∈ (computeChanges cur prop).2, e.key ≠ "websites") := by
  refine ⟨?_, ?_, ?_, ?_⟩
  · rw [computeChanges_keys]
    simp
  · intro v hv
    unfold computeChanges at hv
    dsimp only at hv
    rcases List.mem_append.mp hv with hv | hv
    rotate_left
    · exact congrArg Prod.snd (websitesChange_mem_pair _ _ _ hv)
    rcases List.mem_append.mp hv with hv | hv
    rotate_left
    · have hws := scalarChange_mem_pair _ _ _ _ hv
      simp at hws
    rcases List.mem_append.mp hv with hv | hv
    rotate_left
    · have hws := scalarChange_mem_pair _ _ _ _ hv
      simp at hws
    rcases List.mem_append.mp hv with hv | hv
    rotate_left
    · have hws := scalarChange_mem_pair _ _ _ _ hv
      simp at hws
    rcases List.mem_append.mp hv with hv | hv
    · have hws := scalarChange_mem_pair _ _ _ _ hv
      simp at hws
    · have hws := scalarChange_mem_pair _ _ _ _ hv
      simp at hws
  · intro h1 h2
    refine ⟨(scalarChange "about" cur.about prop.about).2 ++
      (scalarChange "description" cur.description prop.description).2 ++
      (scalarChange "address" cur.address prop.address).2 ++
      (scalarChange "email" cur.email prop.email).2 ++
      (scalarChange "vertical" cur.vertical prop.vertical).2, ?_, ?_⟩
    · unfold computeChanges
      dsimp only
      rw [websitesChange_pos cur.websites prop.websites h1 h2]
    · intro e he
      rcases List.mem_append.mp he with he | he
      rotate_left
      · rw [scalarChange_diff_key _ _ _ _ he]
        decide
      rcases List.mem_append.mp he with he | he
      rotate_left
      · rw [scalarChange_diff_key _ _ _ _ he]
        decide
      rcases List.mem_append.mp he with he | he
      rotate_left
      · rw [scalarChange_diff_key _ _ _ _ he]
        decide
      rcases List.mem_append.mp he with he | he
      · rw [scalarChange_diff_key _ _ _ _ he]
        decide
      · rw [scalarChange_diff_key _ _ _ _ he]
        decide
  · intro hneg e he
    unfold computeChanges at he
    dsimp only at he
    rw [websitesChange_neg cur.websites prop.websites hneg] at he
    rcases List.mem_append.mp he with he | he
    rotate_left
    · exact absurd he (List.not_mem_nil e)
    rcases List.mem_append.mp he with he | he
    rotate_left
    · rw [scalarChange_diff_key _ _ _ _ he]
      decide
    rcases List.mem_append.mp he with he | he
    rotate_left
    · rw [scalarChange_diff_key _ _ _ _ he]
      decide
    rcases List.mem_append.mp he with he | he
    rotate_left
    · rw [scalarChange_diff_key _ _ _ _ he]
      decide
    rcases List.mem_append.mp he with he | he
    · rw [scalarChange_diff_key _ _ _ _ he]
      decide
    · rw [scalarChange_diff_key _ _ _ _ he]
      decide

/-- Claim C4, witness for the amended theorem: a three-element
proposed websites list against a one-element baseline records exactly
the first two entries, and the diff list ends with the single websites
entry. -/
theorem c4_websites_witness :
    ChangeVal.ws ["https://a.com", "https://b.com"] =
      ChangeVal.ws (["https://a.com", "https://b.com", "https://c.com"].take 2) ∧
    (∃ pre, (computeChanges ⟨none, none, none, none, none, some ["https://a.com"]⟩
        ⟨"", "", "", "", "", ["https://a.com", "https://b.com", "https://c.com"]⟩).2 =
          pre ++ [⟨"websites",
            if joinComma ((some ["https://a.com"] : Option (List String)).getD []) = ""
            then "(empty)"
            else joinComma ((some ["https://a.com"] : Option (List String)).getD []),
            joinComma (["https://a.com", "https://b.com", "https://c.com"].take 2)⟩] ∧
        ∀ e ∈ pre, e.key ≠ "websites") :=
  ⟨(c4_websites ⟨none, none, none, none, none, some ["https://a.com"]⟩
      ⟨"", "", "", "", "", ["https://a.com", "https://b.com", "https://c.com"]⟩).2.1
      (ChangeVal.ws ["https://a.com", "https://b.com"])
      (by
        rw [show (computeChanges ⟨none, none, none, none, none, some ["https://a.com"]⟩
          ⟨"", "", "", "", "", ["https://a.com", "https://b.com", "https://c.com"]⟩).1 =
          [("websites", ChangeVal.ws ["https://a.com", "https://b.com"])] from rfl]
        exact List.mem_cons_self _ _),
   (c4_websites ⟨none, none, none, none, none, some ["https://a.com"]⟩
      ⟨"", "", "", "", "", ["https://a.com", "https://b.com", "https://c.com"]⟩).2.2.1
      (by decide) (by decide)⟩

/-- Claim C10: a body value under profile_picture_handle that passes
the non-empty filter is forwarded in the outbound update payload, the
handler transmits that payload in its single applyFields call, and
profile_picture_handle is outside the six change-set fields, which
bound the keys computeChanges can ever produce - so the endpoint can
transmit a key beyond the change-set fields. -/
theorem c10_picture_handle_forwarded (token phoneId : String) (bodyIn : JSVal)
    (resp : RemoteResp) (ht : token ≠ "") (hp : phoneId ≠ "")
    (hh : includeIfValue (jsGet bodyIn "profile_picture_handle") = true) :
    (("profile_picture_handle", jsGet bodyIn "profile_picture_handle") ∈
      profilePayload bodyIn) ∧
    (profilePostHandler token phoneId bodyIn resp).2 =
      [RemoteCall.applyFields (mkProfileUrl phoneId) (profilePayload bodyIn)] ∧
    ("profile_picture_handle" ∉ changeSetKeys) ∧
    (∀ (cur : BaselineProfile) (prop : ProposedInput) (k : String),
      k ∈ (computeChanges cur prop).1.map Prod.fst → k ∈ changeSetKeys) := by
  have hmem : ("profile_picture_handle", jsGet bodyIn "profile_picture_handle") ∈
      profilePayload bodyIn := by
    unfold profilePayload
    dsimp only
    rw [List.append_assoc, List.mem_append]
    right
    rw [List.mem_append]
    left
    rw [List.mem_filterMap]
    exact ⟨"profile_picture_handle", by decide, by rw [if_pos hh]⟩
  refine ⟨hmem, ?_, by decide, ?_⟩
  · unfold profilePostHandler
    rw [if_neg (by simp [ht, hp])]
    dsimp only
    rw [if_neg]
    intro hlen
    obtain ⟨x, hx⟩ := List.length_eq_one.mp hlen
    have hhd : (profilePayload bodyIn).head? = some ("messaging_product", JSVal.str "whatsapp") := by
      unfold profilePayload
      rfl
    rw [hx] at hhd hmem
    simp at hhd
    rw [hhd] at hmem
    simp at hmem
  · intro cur prop k hk
    rw [computeChanges_keys] at hk
    rcases hk with ⟨h, _⟩ | ⟨h, _⟩ | ⟨h, _⟩ | ⟨h, _⟩ | ⟨h, _⟩ | ⟨h, _⟩ <;>
      rw [h] <;> decide

/-- Claim C10, witness: a body containing only profile_picture_handle
is forwarded with that key present, beyond the six change-set keys. -/
theorem c10_picture_handle_forwarded_witness :
    (("profile_picture_handle", jsGet (JSVal.obj [("profile_picture_handle", JSVal.str "H4")])
        "profile_picture_handle") ∈
      profilePayload (JSVal.obj [("profile_picture_handle", JSVal.str "H4")])) ∧
    (profilePostHandler "tok" "12345" (JSVal.obj [("profile_picture_handle", JSVal.str "H4")])
        ⟨true, 200, none⟩).2 =
      [RemoteCall.applyFields (mkProfileUrl "12345")
        (profilePayload (JSVal.obj [("profile_picture_handle", JSVal.str "H4")]))] ∧
    ("profile_picture_handle" ∉ changeSetKeys) :=
  have h := c10_picture_handle_forwarded "tok" "12345"
    (JSVal.obj [("profile_picture_handle", JSVal.str "H4")]) ⟨true, 200, none⟩
    (by decide) (by decide) rfl
  ⟨h.1, h.2.1, h.2.2.1⟩
